import Mathlib

/-!
Verification development for the pipeline orchestration core of the
aiitem-rag-architect repository.

The definitions below are a shallow embedding of the JavaScript sources:

* the registry and run state machine come from the pipeline manager module
  (`PipelineManager` / `PipelineInstance`, src/unnamed/part_005);
* the single-step HTTP endpoint and the SSE broadcaster come from
  src/backend/server.js.

Modelling conventions:

* JS `Date.now()` is modelled by an explicit time parameter (`now : Nat`)
  supplied to each top-level operation; none of the verified properties
  compares two timestamps taken inside one operation.
* The dynamically imported `StepExecutor` is an external collaborator; it is
  modelled as a function parameter of type `Executor` mapping a step name and
  the current results map to either a result or a raised error message,
  mirroring the per-step executor methods selected by the `switch` statement.
* JS exceptions are modelled with `Except`: an operation that can throw
  returns `Except e a`; an operation returning a plain value cannot raise.
* The run's mutable fields become a `RunState` record threaded explicitly.
* Cooperative cancellation: a `cancel()` call can land at any `await`
  boundary of the step loop; the schedule parameter `sched` of the loop says
  at which step boundary (keyed by step ordinal) such a call executes.
-/

namespace AiitemRag

/-- Run statuses, from the `PipelineStatus` constant object. -/
inductive PStatus where
  | idle
  | running
  | completed
  | failed
  | cancelled
deriving DecidableEq

/-- Per-step statuses, the string values used for `step.status`. -/
inductive StStatus where
  | pending
  | running
  | completed
  | failed
deriving DecidableEq

/-- Raw request configuration: fields the caller may or may not provide
(`undefined` absence is `none`). -/
structure ConfigInput where
  projectPath : Option String := none
  filePatterns : Option (List String) := none
  forceReparse : Option Bool := none
  llmModel : Option String := none
  embeddingModel : Option String := none
deriving DecidableEq

/-- Resolved run configuration, after the `PipelineInstance` constructor has
filled in defaults (`config.x || default`, then the `...config` spread, which
for present/absent fields amounts to: keep the provided field, else the
default). `process.cwd()` is passed in as `cwd`. -/
structure Config where
  projectPath : String
  filePatterns : List String
  forceReparse : Bool
  llmModel : String
  embeddingModel : String
deriving DecidableEq

/-- Default application performed by the `PipelineInstance` constructor. -/
def resolveConfig (cwd : String) (c : ConfigInput) : Config :=
  { projectPath := c.projectPath.getD cwd
  , filePatterns := c.filePatterns.getD ["**/*.\x7bpy,ts,js,go,java\x7d"]
  , forceReparse := c.forceReparse.getD false
  , llmModel := c.llmModel.getD "gemini-2.5-flash"
  , embeddingModel := c.embeddingModel.getD "text-embedding-ada-002" }

/-- One entry of the static `PipelineSteps` catalog. -/
structure StepDescr where
  id : Nat
  name : String
  label : String
deriving DecidableEq

/-- The fixed, ordered step catalog (`PipelineSteps`). -/
def pipelineSteps : List StepDescr :=
  [ { id := 1, name := "parsing", label := "Polyglot Parsing (L0)" }
  , { id := 2, name := "dependencies", label := "Dependency Analysis (L1)" }
  , { id := 3, name := "enrichment", label := "Semantic Enrichment (L2)" }
  , { id := 4, name := "vectorization", label := "Vectorization" }
  , { id := 5, name := "indexing", label := "Index Construction" } ]

/-- Per-run mutable step record, as initialised in the `PipelineInstance`
constructor (catalog entry spread together with the bookkeeping fields). -/
structure StepState where
  id : Nat
  name : String
  label : String
  status : StStatus := .pending
  progress : Nat := 0
  startedAt : Option Nat := none
  completedAt : Option Nat := none
  error : Option String := none
  itemsProcessed : Nat := 0
  totalItems : Nat := 0
deriving DecidableEq

/-- The whole mutable state of one `PipelineInstance`. -/
structure RunState where
  id : String
  config : Config
  status : PStatus := .idle
  currentStep : Nat := 0
  createdAt : Nat
  startedAt : Option Nat := none
  completedAt : Option Nat := none
  error : Option String := none
  results : List (String × String) := []
  steps : List StepState
  cancelled : Bool := false
deriving DecidableEq

/-- Initial step records built from the catalog. -/
def initSteps : List StepState :=
  pipelineSteps.map (fun d => { id := d.id, name := d.name, label := d.label })

/-- The `PipelineInstance` constructor. -/
def newRun (id : String) (cfg : Config) (now : Nat) : RunState :=
  { id := id, config := cfg, createdAt := now, steps := initSteps }

/-- The external step executor: given the step name and the current results
map, either return the step result or raise an error message. -/
def Executor : Type := String → List (String × String) → Except String String

/-- JS object property assignment `results[name] = r` on the results map. -/
def setResult (rs : List (String × String)) (k v : String) : List (String × String) :=
  if rs.any (fun p => p.1 == k) then rs.map (fun p => if p.1 == k then (k, v) else p)
  else rs ++ [(k, v)]

/-- In-place mutation of the step record with ordinal `i` inside the run's
step array. -/
def updStep (steps : List StepState) (i : Nat) (f : StepState → StepState) : List StepState :=
  steps.map (fun s => if s.id == i then f s else s)

/-- Status of the step record with ordinal `i` (the loop variable `step`
always denotes an existing record, so the default is never consulted for
states reachable from `newRun`). -/
def stepStatusOf (st : RunState) (i : Nat) : StStatus :=
  ((st.steps.find? (fun s => s.id == i)).map (fun s => s.status)).getD .pending

/-- String rendering of `step.error` as interpolated by the dead re-check in
the loop body (`null` prints as "null"). -/
def stepErrorOf (st : RunState) (i : Nat) : String :=
  ((st.steps.find? (fun s => s.id == i)).map (fun s => s.error.getD "null")).getD "null"

/-- The `switch (step.name)` dispatch in `executeStep`, selecting one of the
five executor methods; an unknown name raises. -/
def dispatchStep (ex : Executor) (name : String) (results : List (String × String)) :
    Except String String :=
  match name with
  | "parsing" => ex "parsing" results
  | "dependencies" => ex "dependencies" results
  | "enrichment" => ex "enrichment" results
  | "vectorization" => ex "vectorization" results
  | "indexing" => ex "indexing" results
  | _ => Except.error ("Unknown step: " ++ name)

/-- `PipelineInstance.executeStep`: marks the step running, dispatches to the
executor, and on success stores the result and completes the step at 100%
progress; on failure records the error on the step and re-raises (carrying
the updated state). The executor's intermediate progress events only feed
the event stream and the transient `progress` counters; the final value of
every field proved about below is determined by the success/failure branch. -/
def executeStep (ex : Executor) (now : Nat) (d : Nat × String) (st : RunState) :
    Except (String × RunState) RunState :=
  let markRunning : StepState → StepState :=
    fun s => { s with status := .running, startedAt := some now }
  let markDone : StepState → StepState :=
    fun s => { s with status := .completed, completedAt := some now, progress := 100 }
  let markFailed (e : String) : StepState → StepState :=
    fun s => { s with status := .failed, completedAt := some now, error := some e }
  let st1 : RunState :=
    { st with currentStep := d.1, steps := updStep st.steps d.1 markRunning }
  match dispatchStep ex d.2 st1.results with
  | Except.ok r =>
      Except.ok { st1 with results := setResult st1.results d.2 r,
                           steps := updStep st1.steps d.1 markDone }
  | Except.error e =>
      Except.error (e, { st1 with steps := updStep st1.steps d.1 (markFailed e) })

/-- `PipelineInstance.rollback`: the `try` block only inspects
`results.parsing?.tempFiles` and `results.indexing?.indexPath` (the cleanup
bodies are empty) and then clears the results map; the `catch` swallows any
error, so rollback always returns normally and touches nothing but
`results`. -/
def rollback (st : RunState) : RunState :=
  { st with results := [] }

/-- The `catch` block of `PipelineInstance.start`: mark the run failed,
record the error message of the raised error, then roll back. -/
def failRun (now : Nat) (st : RunState) (e : String) : RunState :=
  rollback { st with status := .failed, completedAt := some now, error := some e }

/-- `PipelineInstance.cancel`: set the cooperative-cancellation flag, force
the status to cancelled, stamp `completedAt`, then roll back. No branch of
this operation can raise. -/
def cancelRun (now : Nat) (st : RunState) : RunState :=
  rollback { st with cancelled := true, status := .cancelled, completedAt := some now }

/-- The `for (const step of this.steps)` loop of `PipelineInstance.start`,
iterating over the (ordinal, name) views of the run's step records.
`sched i = some t` means a concurrent `cancel()` call lands at time `t` at
the await boundary just before step `i`'s flag check. The `stepStatusOf`
re-check after a successful `executeStep` mirrors the source's
`if (step.status === 'failed')` guard (dead in practice, since a failing
step always raises). -/
def loopGo (ex : Executor) (sched : Nat → Option Nat) (now : Nat) :
    List (Nat × String) → RunState → RunState
  | [], st => { st with status := .completed, completedAt := some now }
  | d :: rest, st =>
      let st1 := match sched d.1 with
        | some t => cancelRun t st
        | none => st
      if st1.cancelled then { st1 with status := .cancelled }
      else
        match executeStep ex now d st1 with
        | Except.ok st2 =>
            if stepStatusOf st2 d.1 = .failed then
              failRun now st2 ("Step " ++ d.2 ++ " failed: " ++ stepErrorOf st2 d.1)
            else loopGo ex sched now rest st2
        | Except.error (e, st2) => failRun now st2 e

/-- `PipelineInstance.start`: mark the run running and drive the step loop. -/
def startRun (ex : Executor) (sched : Nat → Option Nat) (now : Nat) (st : RunState) : RunState :=
  let st1 : RunState := { st with status := .running, startedAt := some now }
  loopGo ex sched now (st1.steps.map (fun s => (s.id, s.name))) st1

/-- Operations that can reach an existing run after it was admitted: a
`cancel()` call (via the registry's `cancelPipeline`) and a `rollback()`
call. `start()` is scheduled exactly once at admission, so it is not part
of this post-admission alphabet. -/
inductive RunOp where
  | cancel (now : Nat)
  | doRollback
deriving DecidableEq

/-- Apply one post-admission operation to a run. -/
def applyOp : RunOp → RunState → RunState
  | .cancel t, st => cancelRun t st
  | .doRollback, st => rollback st

/-- Terminal run statuses. -/
def isTerminal : PStatus → Bool
  | .completed => true
  | .failed => true
  | .cancelled => true
  | _ => false

/-- The registry state of `PipelineManager`: the `pipelines` map (an insertion
ordered association list, like a JS `Map`) and the configured admission
ceiling. -/
structure ManagerState where
  pipelines : List (String × RunState) := []
  maxConcurrentPipelines : Nat := 3
deriving DecidableEq

/-- The `PipelineManager` constructor. -/
def newManager : ManagerState := {}

/-- The count of runs whose status is `running`, as computed at the top of
`startPipeline`. -/
def countRunning (m : ManagerState) : Nat :=
  (m.pipelines.filter (fun p => p.2.status = PStatus.running)).length

/-- The message of the error thrown when the admission ceiling is reached. -/
def capacityMsg (n : Nat) : String :=
  "Maximum concurrent pipelines limit reached (" ++ toString n ++ ")"

/-- The value returned by a successful `startPipeline` call. -/
structure StartResult where
  pipelineId : String
  status : PStatus
  createdAt : Nat
deriving DecidableEq

/-- `PipelineManager.startPipeline`: count the `running` entries; at or above
the ceiling, throw before touching the map; otherwise construct the instance,
store it, schedule `start()` via `setImmediate` (deferred, so the map holds
the instance still in `idle` when the call returns) and return immediately.
The fresh uuid is passed in as `newId`. -/
def startPipeline (m : ManagerState) (newId : String) (cin : ConfigInput) (cwd : String)
    (now : Nat) : Except String (ManagerState × StartResult) :=
  if countRunning m ≥ m.maxConcurrentPipelines then
    Except.error (capacityMsg m.maxConcurrentPipelines)
  else
    let run := newRun newId (resolveConfig cwd cin) now
    Except.ok ({ m with pipelines := m.pipelines ++ [(newId, run)] },
               { pipelineId := newId, status := PStatus.running, createdAt := now })

/-- `PipelineManager.cancelPipeline`: `NotFound` on an unknown id, otherwise
delegate to the run's `cancel()` (no status guard) and report the resulting
status. -/
def cancelPipeline (m : ManagerState) (pid : String) (now : Nat) :
    Except String (ManagerState × PStatus) :=
  match m.pipelines.lookup pid with
  | none => Except.error ("Pipeline " ++ pid ++ " not found")
  | some run =>
      let run1 := cancelRun now run
      Except.ok ({ m with pipelines := m.pipelines.map (fun p => if p.1 == pid then (pid, run1) else p) },
                 run1.status)

/-- The JS truthiness test `pipeline.completedAt && pipeline.completedAt < cutoffTime`
used by `cleanup`: `null` and the number `0` are both falsy. -/
def completedBefore (cutoff : Nat) (r : RunState) : Bool :=
  match r.completedAt with
  | none => false
  | some t => t != 0 && decide (t < cutoff)

/-- `PipelineManager.cleanup`: delete every entry whose `completedAt` is
truthy and older than one hour. -/
def cleanup (now : Nat) (m : ManagerState) : ManagerState :=
  let cutoffTime := now - 60 * 60 * 1000
  { m with pipelines := m.pipelines.filter (fun p => !completedBefore cutoffTime p.2) }

/-- The HTTP response produced by the single-step endpoint
(`POST /api/pipeline/step/:stepId/run`). `step` is the body of a successful
response (never produced, see `handleStepRun`). -/
structure StepRunResponse where
  status : Nat
  success : Bool
  error : Option String := none
  step : Option String := none
deriving DecidableEq

/-- The methods defined on the `PipelineManager` class in the pipeline
manager module. `runStep` is not among them. -/
def pipelineManagerMethods : List String :=
  ["constructor", "startPipeline", "getPipelineStatus", "cancelPipeline",
   "getAllPipelines", "cleanup"]

/-- The single-step endpoint handler. Its input is the result of
`parseInt(req.params.stepId)` (`none` models `NaN`). Out-of-range ids get a
400. For an in-range id the handler calls `pipelineManager.runStep`, but the
manager class has no such method, so the property access yields `undefined`,
the call raises `TypeError: pipelineManager.runStep is not a function`, and
the surrounding `catch` answers 500; the 200 branch below is therefore
unreachable. -/
def handleStepRun (stepId : Option Int) : StepRunResponse :=
  match stepId with
  | none =>
      { status := 400, success := false, error := some "Invalid stepId. Must be between 1 and 5" }
  | some n =>
      if n < 1 ∨ n > 5 then
        { status := 400, success := false, error := some "Invalid stepId. Must be between 1 and 5" }
      else if pipelineManagerMethods.contains "runStep" then
        { status := 200, success := true, step := some "step started" }
      else
        { status := 500, success := false,
          error := some "pipelineManager.runStep is not a function" }

/-- An SSE event payload: its `type` field, an opaque rest-of-payload, and
the optional `pipelineId` tag added for global subscribers by the spread
`\x7b...data, pipelineId\x7d`. -/
structure SSEEvent where
  ty : String
  payload : String
  pipelineId : Option String := none
deriving DecidableEq

/-- The `sseConnections` map, `pipelineId → Set<connection>`, with the
distinguished key "global"; a missing key behaves as the empty set.
Connections are identified by numbers. -/
def SSEConns : Type := String → List Nat

/-- Replacing the subscriber set stored under one key. -/
def setConns (m : SSEConns) (k : String) (cs : List Nat) : SSEConns :=
  fun q => if q = k then cs else m q

/-- `broadcastSSE(pipelineId, data)` from server.js. `writeOk c` says whether
`res.write` on connection `c` succeeds; a failing write is caught and only
deletes that connection from the set being iterated. Returns the updated
connection map together with the list of deliveries (connection, frame)
actually written. First the run's own subscriber set receives `data`, then
the global set receives `data` tagged with the pipeline id; each phase is
skipped when its set is missing or empty. -/
def broadcastSSE (writeOk : Nat → Bool) (pid : String) (data : SSEEvent) (m : SSEConns) :
    SSEConns × List (Nat × SSEEvent) :=
  let conns := m pid
  let m1 := if conns.length > 0 then setConns m pid (conns.filter writeOk) else m
  let sent1 := if conns.length > 0 then (conns.filter writeOk).map (fun c => (c, data)) else []
  let g := m1 "global"
  let tagged : SSEEvent := { data with pipelineId := some pid }
  let m2 := if g.length > 0 then setConns m1 "global" (g.filter writeOk) else m1
  let sent2 := if g.length > 0 then (g.filter writeOk).map (fun c => (c, tagged)) else []
  (m2, sent1 ++ sent2)

/-! Concrete fixtures shared by several theorems below. -/

/-- A resolved configuration with all defaults. -/
def cfg0 : Config := resolveConfig "/" {}

/-- An executor whose every call succeeds. -/
def exOk : Executor := fun _ _ => Except.ok "ok"

/-- An executor that raises "timeout" on the dependency-analysis step and
succeeds everywhere else. -/
def exT : Executor := fun n _ => if n = "dependencies" then Except.error "timeout" else Except.ok "r"

/-- The empty cancellation schedule: no concurrent `cancel()` lands during
the run. -/
def schedNone : Nat → Option Nat := fun _ => none

/-- A fresh run driven to completion with every executor call succeeding. -/
def runDone : RunState := startRun exOk schedNone 1 (newRun "p1" cfg0 0)

/-- A fresh run executed with executor `ex` and no concurrent cancellation. -/
def runWith (ex : Executor) (id : String) (cfg : Config) (t0 now : Nat) : RunState :=
  startRun ex schedNone now (newRun id cfg t0)

/-- A fresh run in which step 2 raises "timeout". -/
def runC : RunState := runWith exT "pc" cfg0 0 5

/-- C1: for every registry state and configuration, `startPipeline` while the
count of `running` runs is below the ceiling succeeds and appends the new run
to the registry map, and while the count is at or above the ceiling throws
the capacity-exceeded error before performing any action (in particular the
map is untouched, the error being raised before the `set` call); the
constructor fixes the ceiling at 3. -/
theorem c1_start_capacity (m : ManagerState) (newId : String) (cin : ConfigInput)
    (cwd : String) (now : Nat) :
    (countRunning m < m.maxConcurrentPipelines →
      startPipeline m newId cin cwd now =
        Except.ok ({ m with pipelines :=
                       m.pipelines ++ [(newId, newRun newId (resolveConfig cwd cin) now)] },
                   { pipelineId := newId, status := PStatus.running, createdAt := now })) ∧
    (countRunning m ≥ m.maxConcurrentPipelines →
      startPipeline m newId cin cwd now = Except.error (capacityMsg m.maxConcurrentPipelines)) ∧
    newManager.maxConcurrentPipelines = 3 := by
  refine ⟨fun h => ?_, fun h => ?_, rfl⟩
  · simp [startPipeline, Nat.not_le.mpr h]
  · simp [startPipeline, h]

/-- A run with status `running`, used to build a registry at capacity. -/
def run3 : RunState := { newRun "r" cfg0 0 with status := PStatus.running }

/-- A registry holding three `running` runs: exactly at the ceiling. -/
def m3 : ManagerState := { pipelines := [("a", run3), ("b", run3), ("c", run3)] }

/-- Witness for C1: below the ceiling (fresh registry) admission succeeds; at
the ceiling (three running runs) it fails with the capacity error. -/
theorem c1_start_capacity_w :
    countRunning newManager < newManager.maxConcurrentPipelines ∧
    (startPipeline newManager "p" {} "/" 5).isOk = true ∧
    countRunning m3 ≥ m3.maxConcurrentPipelines ∧
    startPipeline m3 "p" {} "/" 5 = Except.error (capacityMsg 3) := by
  refine ⟨by decide, ?_, by decide, ?_⟩
  · rw [(c1_start_capacity newManager "p" {} "/" 5).1 (by decide)]; rfl
  · exact (c1_start_capacity m3 "p" {} "/" 5).2.1 (by decide)

/-- Helper for C2: the step loop always leaves the run in a terminal
status (completed, failed or cancelled). -/
theorem loopGo_terminal (ex : Executor) (sched : Nat → Option Nat) (now : Nat) :
    ∀ (ds : List (Nat × String)) (st : RunState),
      isTerminal (loopGo ex sched now ds st).status = true := by
  intro ds
  induction ds with
  | nil => intro st; rfl
  | cons d rest ih =>
      intro st
      unfold loopGo
      cases hsched : sched d.1 with
      | none =>
          by_cases hc : st.cancelled
          · simp [hc, isTerminal]
          · simp only [hc]
            cases hex : executeStep ex now d st with
            | ok st2 =>
                by_cases hf : stepStatusOf st2 d.1 = StStatus.failed
                · simp [hf, failRun, rollback, isTerminal]
                · simp [hf]; exact ih st2
            | error p =>
                simp [failRun, rollback, isTerminal]
      | some t =>
          simp [cancelRun, rollback, isTerminal]

/-- C2 counterexample: a run driven to the terminal status `completed` is
moved to `cancelled` by a subsequent `cancel()` call — an operation does
change the status of a run already in a terminal state, so the claimed
invariant fails on the code. (The sequence is reachable through the public
API: `startPipeline`, the scheduled `start()` running to completion, then
`cancelPipeline`, which calls `cancel()` without any status guard.) -/
theorem c2_counterexample :
    runDone.status = PStatus.completed ∧
    isTerminal runDone.status = true ∧
    (cancelRun 2 runDone).status = PStatus.cancelled ∧
    PStatus.cancelled ≠ PStatus.completed :=
  ⟨rfl, rfl, rfl, by decide⟩

/-- C2 (amended): a fresh run starts in `idle`; executing it (with any
executor behavior and any schedule of concurrent cancellations) always ends
in one of the terminal statuses completed, failed or cancelled; `cancel()`
forces the status to `cancelled` from any state — including the terminal
states `completed` and `failed` —; and apart from `cancel()`, no
post-admission operation changes the status of a run already in a terminal
state. -/
theorem c2_amended :
    (∀ (id : String) (cfg : Config) (t : Nat), (newRun id cfg t).status = PStatus.idle) ∧
    (∀ (ex : Executor) (sched : Nat → Option Nat) (now : Nat) (st : RunState),
        isTerminal (startRun ex sched now st).status = true) ∧
    (∀ (now : Nat) (st : RunState), (cancelRun now st).status = PStatus.cancelled) ∧
    (∀ (st : RunState) (op : RunOp), isTerminal st.status = true →
        (applyOp op st).status = st.status ∨
          ((applyOp op st).status = PStatus.cancelled ∧ ∃ t, op = RunOp.cancel t)) := by
  refine ⟨fun _ _ _ => rfl, fun ex sched now st => loopGo_terminal ex sched now _ _,
          fun _ _ => rfl, ?_⟩
  intro st op h
  cases op with
  | cancel t => exact Or.inr ⟨rfl, t, rfl⟩
  | doRollback => exact Or.inl rfl

/-- A run sitting in the terminal status `failed`. -/
def stTerm : RunState := { newRun "w" cfg0 0 with status := PStatus.failed }

/-- Witness for C2 (amended): a rollback on a failed run leaves its status
alone. -/
theorem c2_amended_w :
    isTerminal stTerm.status = true ∧
    ((applyOp RunOp.doRollback stTerm).status = stTerm.status ∨
      ((applyOp RunOp.doRollback stTerm).status = PStatus.cancelled ∧
        ∃ t, RunOp.doRollback = RunOp.cancel t)) :=
  ⟨rfl, c2_amended.2.2.2 stTerm RunOp.doRollback rfl⟩

/-- C3 counterexample: in the scenario where step 2 (dependency analysis)
raises "timeout", the run's final `errorMessage` is exactly the re-raised
step error "timeout"; it does not contain "dependencies" (the wrapping
`Step ... failed:` message is built only by a dead re-check that the raising
path never reaches), so the claimed errorMessage content fails on the code.
The remaining clauses hold: status failed, steps 3-5 pending, results empty
after rollback. -/
theorem c3_counterexample :
    runC.status = PStatus.failed ∧
    runC.error = some "timeout" ∧
    ¬ List.IsInfix "dependencies".data ((runC.error.getD "").data) ∧
    runC.results = [] ∧
    runC.steps.map (fun s => (s.id, s.status)) =
      [(1, StStatus.completed), (2, StStatus.failed),
       (3, StStatus.pending), (4, StStatus.pending), (5, StStatus.pending)] :=
  ⟨rfl, rfl, by decide, rfl, rfl⟩

/-- C3 (amended): for every run in which step 1 succeeds and step 2
(dependency analysis) raises "timeout", the run ends `failed` with
`errorMessage` exactly "timeout" — containing "timeout" but not
"dependencies" —, steps 3 through 5 are `pending` in the final state and stay
unchanged under every later operation, and the results map is empty after
rollback. -/
theorem c3_amended (ex : Executor) (id : String) (cfg : Config) (t0 now : Nat) (v1 : String)
    (h1 : ex "parsing" [] = Except.ok v1)
    (h2 : ex "dependencies" [("parsing", v1)] = Except.error "timeout") :
    (runWith ex id cfg t0 now).status = PStatus.failed ∧
    (runWith ex id cfg t0 now).error = some "timeout" ∧
    (runWith ex id cfg t0 now).results = [] ∧
    (runWith ex id cfg t0 now).steps.map (fun s => (s.id, s.status)) =
      [(1, StStatus.completed), (2, StStatus.failed),
       (3, StStatus.pending), (4, StStatus.pending), (5, StStatus.pending)] ∧
    List.IsInfix "timeout".data (((runWith ex id cfg t0 now).error.getD "").data) ∧
    ¬ List.IsInfix "dependencies".data (((runWith ex id cfg t0 now).error.getD "").data) ∧
    (∀ op, (applyOp op (runWith ex id cfg t0 now)).steps = (runWith ex id cfg t0 now).steps) := by
  have key : runWith ex id cfg t0 now =
      runWith (fun n r => if n = "dependencies" then Except.error "timeout"
                          else if n = "parsing" then Except.ok v1 else ex n r) id cfg t0 now := by
    simp [runWith, startRun, newRun, initSteps, pipelineSteps, loopGo, executeStep, dispatchStep,
          setResult, updStep, stepStatusOf, schedNone, h1, h2, failRun, rollback]
  rw [key]
  refine ⟨rfl, rfl, rfl, rfl, ?_, ?_, fun op => ?_⟩
  · show List.IsInfix "timeout".data "timeout".data
    decide
  · show ¬ List.IsInfix "dependencies".data "timeout".data
    decide
  · cases op <;> rfl

/-- Witness for C3 (amended), instantiated at the concrete executor `exT`. -/
theorem c3_amended_w :
    (runWith exT "pw" cfg0 0 5).status = PStatus.failed ∧
    (runWith exT "pw" cfg0 0 5).error = some "timeout" ∧
    (runWith exT "pw" cfg0 0 5).results = [] :=
  ⟨(c3_amended exT "pw" cfg0 0 5 "r" rfl rfl).1,
   (c3_amended exT "pw" cfg0 0 5 "r" rfl rfl).2.1,
   (c3_amended exT "pw" cfg0 0 5 "r" rfl rfl).2.2.1⟩

/-- C4: the single-step endpoint answers 400 with a failure body whenever the
parsed stepId is NaN or outside [1,5]; for an in-range stepId (3 here) it
does NOT answer success — the manager class defines no `runStep` method, so
the handler's call raises and the catch answers 500 with a failure body.
This contradicts the claimed success path and documents the code bug. -/
theorem c4_step_endpoint :
    (handleStepRun (some 3)).status = 500 ∧
    (handleStepRun (some 3)).success = false ∧
    (handleStepRun (some 3)).error = some "pipelineManager.runStep is not a function" ∧
    (handleStepRun (some 3)).step = none ∧
    (handleStepRun none).status = 400 ∧
    (handleStepRun none).success = false ∧
    (handleStepRun (some 0)).status = 400 ∧
    (handleStepRun (some 6)).status = 400 ∧
    pipelineManagerMethods.contains "runStep" = false := by
  decide

/-- C5: when the cooperative-cancellation flag is already set at the check
preceding a step of the main loop, the loop only forces the status to
`cancelled` and returns — no rollback runs, so the results map is returned
exactly as it was; the explicit `cancel()` entry point, by contrast, always
runs rollback, which empties the results map. -/
theorem c5_cancellation_paths (ex : Executor) (sched : Nat → Option Nat) (now : Nat)
    (d : Nat × String) (rest : List (Nat × String)) (st : RunState) (t : Nat) :
    (sched d.1 = none → st.cancelled = true →
      loopGo ex sched now (d :: rest) st = { st with status := PStatus.cancelled }) ∧
    (cancelRun t st).results = [] := by
  refine ⟨fun hs hc => ?_, rfl⟩
  simp [loopGo, hs, hc]

/-- A run state whose cancellation flag is set while the results map still
holds the first step's entry. -/
def stCancelled : RunState :=
  { newRun "wc" cfg0 0 with cancelled := true, status := PStatus.cancelled,
                            completedAt := some 3, results := [("parsing", "r1")] }

/-- Witness for C5: the loop detects the flag before the second step, keeps
the stored result, and does not roll back; `cancel()` itself clears it. -/
theorem c5_cancellation_paths_w :
    (schedNone 2 = none ∧ stCancelled.cancelled = true) ∧
    loopGo exOk schedNone 9 [(2, "dependencies"), (3, "enrichment")] stCancelled
      = { stCancelled with status := PStatus.cancelled } ∧
    (loopGo exOk schedNone 9 [(2, "dependencies"), (3, "enrichment")] stCancelled).results
      = [("parsing", "r1")] ∧
    (cancelRun 9 stCancelled).results = [] := by
  have h := c5_cancellation_paths exOk schedNone 9 (2, "dependencies") [(3, "enrichment")]
    stCancelled 9
  refine ⟨⟨rfl, rfl⟩, h.1 rfl rfl, ?_, h.2⟩
  rw [h.1 rfl rfl]
  rfl

/-- C6 counterexample: a run whose `completedAt` is the non-null timestamp 0
and which is far older than the one-hour cutoff survives the sweep: the JS
guard `pipeline.completedAt && ...` treats the number 0 as falsy, so this
entry is never deleted although the claim says every non-null `completedAt`
older than the cutoff is removed. -/
def rEpoch : RunState :=
  { newRun "old" cfg0 0 with status := PStatus.completed, completedAt := some 0 }

/-- A registry holding only the epoch-completed run. -/
def mEpoch : ManagerState := { pipelines := [("e", rEpoch)] }

/-- C6 counterexample theorem: see `rEpoch`. -/
theorem c6_counterexample :
    rEpoch.completedAt = some 0 ∧
    (0 : Nat) < 7200000 - 60 * 60 * 1000 ∧
    (cleanup 7200000 mEpoch).pipelines = [("e", rEpoch)] :=
  ⟨rfl, by decide, rfl⟩

/-- C6 (amended): the sweep keeps exactly the entries whose `completedAt`
fails the truthy-and-older test; in particular every active run
(`completedAt` null) and every run completed at or after the cutoff is kept
unchanged, and every run with a non-null, non-zero `completedAt` older than
the cutoff is removed. (The zero-timestamp exception is what the
counterexample forces.) -/
theorem c6_eviction_amended (m : ManagerState) (now : Nat) :
    (∀ e : String × RunState, e ∈ (cleanup now m).pipelines ↔
        e ∈ m.pipelines ∧ completedBefore (now - 60 * 60 * 1000) e.2 = false) ∧
    (∀ e : String × RunState, e ∈ m.pipelines → e.2.completedAt = none →
        e ∈ (cleanup now m).pipelines) ∧
    (∀ (e : String × RunState) (t : Nat), e ∈ m.pipelines → e.2.completedAt = some t →
        now - 60 * 60 * 1000 ≤ t → e ∈ (cleanup now m).pipelines) ∧
    (∀ (e : String × RunState) (t : Nat), e ∈ m.pipelines → e.2.completedAt = some t →
        t ≠ 0 → t < now - 60 * 60 * 1000 → e ∉ (cleanup now m).pipelines) := by
  refine ⟨fun e => ?_, fun e he hn => ?_, fun e t he hc hle => ?_, fun e t he hc hnz hlt => ?_⟩
  · simp [cleanup, List.mem_filter]
  · simp [cleanup, List.mem_filter, he, completedBefore, hn]
  · simp [cleanup, List.mem_filter, he, completedBefore, hc,
          decide_eq_false (Nat.not_lt.mpr hle)]
  · simp [cleanup, List.mem_filter, he, completedBefore, hc, hnz, hlt]

/-- An active run (no `completedAt`). -/
def runActive : RunState := { newRun "a" cfg0 0 with status := PStatus.running }

/-- A run completed after the sweep cutoff used in the witness. -/
def runRecent : RunState :=
  { newRun "b" cfg0 0 with status := PStatus.completed, completedAt := some 5000000 }

/-- A run completed long before the sweep cutoff used in the witness. -/
def runOld : RunState :=
  { newRun "c" cfg0 0 with status := PStatus.completed, completedAt := some 10 }

/-- A registry mixing an active, a recent and a stale run. -/
def mSweep : ManagerState :=
  { pipelines := [("a", runActive), ("b", runRecent), ("c", runOld)] }

/-- Witness for C6 (amended): the sweep at time 7200000 keeps the active and
the recently completed run and drops the stale one. -/
theorem c6_eviction_amended_w :
    ("a", runActive) ∈ (cleanup 7200000 mSweep).pipelines ∧
    ("b", runRecent) ∈ (cleanup 7200000 mSweep).pipelines ∧
    ("c", runOld) ∉ (cleanup 7200000 mSweep).pipelines := by
  have h := c6_eviction_amended mSweep 7200000
  exact ⟨h.2.1 ("a", runActive) (by decide) rfl,
         h.2.2.1 ("b", runRecent) 5000000 (by decide) rfl (by decide),
         h.2.2.2 ("c", runOld) 10 (by decide) rfl (by decide) (by decide)⟩

/-- C7: `cancel()` is idempotent — it is a total operation (its rollback
swallows every cleanup error, so no call can raise), a second call collapses
to a single call at the later timestamp, and the status after two calls is
`cancelled`. -/
theorem c7_cancel_idempotent (st : RunState) (t1 t2 : Nat) :
    (cancelRun t2 (cancelRun t1 st)).status = PStatus.cancelled ∧
    cancelRun t2 (cancelRun t1 st) = cancelRun t2 st :=
  ⟨rfl, rfl⟩

/-- C8: `rollback()` always returns (its catch swallows any cleanup error and
the cleanup branches of the source perform no effectful action), leaves the
results map empty, and changes neither the run's status nor its error nor its
step records; at both of its call sites (failure handling and `cancel()`) the
terminal status set before the rollback call is preserved by it. -/
theorem c8_rollback_total (st : RunState) (now : Nat) (e : String) :
    (rollback st).results = [] ∧
    (rollback st).status = st.status ∧
    (rollback st).error = st.error ∧
    (rollback st).steps = st.steps ∧
    (rollback st).completedAt = st.completedAt ∧
    (failRun now st e).status = PStatus.failed ∧
    (failRun now st e).results = [] ∧
    (cancelRun now st).status = PStatus.cancelled ∧
    (cancelRun now st).results = [] :=
  ⟨rfl, rfl, rfl, rfl, rfl, rfl, rfl, rfl, rfl⟩

/-- C9: for every run in which each of the five executor calls succeeds, the
run ends `completed`; every step's result is stored in the results map under
the step's name (in step order, each call receiving the results accumulated
so far), and all five step records are `completed` at 100% progress with
`completedAt` stamped. -/
theorem c9_all_success (ex : Executor) (id : String) (cfg : Config) (t0 now : Nat)
    (v1 v2 v3 v4 v5 : String)
    (h1 : ex "parsing" [] = Except.ok v1)
    (h2 : ex "dependencies" [("parsing", v1)] = Except.ok v2)
    (h3 : ex "enrichment" [("parsing", v1), ("dependencies", v2)] = Except.ok v3)
    (h4 : ex "vectorization"
            [("parsing", v1), ("dependencies", v2), ("enrichment", v3)] = Except.ok v4)
    (h5 : ex "indexing"
            [("parsing", v1), ("dependencies", v2), ("enrichment", v3),
             ("vectorization", v4)] = Except.ok v5) :
    (runWith ex id cfg t0 now).status = PStatus.completed ∧
    (runWith ex id cfg t0 now).results =
      [("parsing", v1), ("dependencies", v2), ("enrichment", v3),
       ("vectorization", v4), ("indexing", v5)] ∧
    (runWith ex id cfg t0 now).steps.map (fun s => (s.status, s.progress, s.completedAt)) =
      List.replicate 5 (StStatus.completed, 100, some now) ∧
    (runWith ex id cfg t0 now).completedAt = some now := by
  simp [runWith, startRun, newRun, initSteps, pipelineSteps, loopGo, executeStep, dispatchStep,
        setResult, updStep, stepStatusOf, schedNone, h1, h2, h3, h4, h5, List.replicate]

/-- Witness for C9, instantiated at the concrete all-success executor. -/
theorem c9_all_success_w :
    runDone.status = PStatus.completed ∧
    runDone.results =
      [("parsing", "ok"), ("dependencies", "ok"), ("enrichment", "ok"),
       ("vectorization", "ok"), ("indexing", "ok")] :=
  ⟨(c9_all_success exOk "p1" cfg0 0 1 "ok" "ok" "ok" "ok" "ok" rfl rfl rfl rfl rfl).1,
   (c9_all_success exOk "p1" cfg0 0 1 "ok" "ok" "ok" "ok" "ok" rfl rfl rfl rfl rfl).2.1⟩

/-- Pointwise evaluation of `setConns`. -/
theorem setConns_apply (m : SSEConns) (k : String) (cs : List Nat) (q : String) :
    setConns m k cs q = if q = k then cs else m q := rfl

/-- Helper for C10: the run's own subscriber set after a broadcast. -/
theorem broadcast_fst_pid (writeOk : Nat → Bool) (pid : String) (data : SSEEvent)
    (m : SSEConns) (hpid : pid ≠ "global") :
    (broadcastSSE writeOk pid data m).1 pid =
      if 0 < (m pid).length then (m pid).filter writeOk else m pid := by
  have hgp : ("global" : String) ≠ pid := Ne.symm hpid
  unfold broadcastSSE
  by_cases h1 : 0 < (m pid).length <;>
    by_cases h2 : 0 < (m "global").length <;>
    simp [h1, h2, setConns_apply, if_neg hpid, if_neg hgp]

/-- Helper for C10: the global subscriber set after a broadcast. -/
theorem broadcast_fst_global (writeOk : Nat → Bool) (pid : String) (data : SSEEvent)
    (m : SSEConns) (hpid : pid ≠ "global") :
    (broadcastSSE writeOk pid data m).1 "global" =
      if 0 < (m "global").length then (m "global").filter writeOk else m "global" := by
  have hgp : ("global" : String) ≠ pid := Ne.symm hpid
  unfold broadcastSSE
  by_cases h1 : 0 < (m pid).length <;>
    by_cases h2 : 0 < (m "global").length <;>
    simp [h1, h2, setConns_apply, if_neg hpid, if_neg hgp]

/-- Helper for C10: the deliveries performed by a broadcast. -/
theorem broadcast_snd (writeOk : Nat → Bool) (pid : String) (data : SSEEvent)
    (m : SSEConns) (hpid : pid ≠ "global") :
    (broadcastSSE writeOk pid data m).2 =
      (if 0 < (m pid).length then ((m pid).filter writeOk).map (fun c => (c, data)) else []) ++
      (if 0 < (m "global").length then
        ((m "global").filter writeOk).map (fun c => (c, { data with pipelineId := some pid }))
       else []) := by
  have hgp : ("global" : String) ≠ pid := Ne.symm hpid
  unfold broadcastSSE
  by_cases h1 : 0 < (m pid).length <;>
    by_cases h2 : 0 < (m "global").length <;>
    simp [h1, h2, setConns_apply, if_neg hpid, if_neg hgp]

/-- C10: a broadcast delivers the event to every connection of the run's
subscriber set whose write succeeds, and the tagged event to every such
connection of the global set; a connection whose write fails is removed from
the updated sets, while every connection whose write succeeds is kept — a
single failure never aborts delivery to the others. -/
theorem c10_broadcast (writeOk : Nat → Bool) (pid : String) (data : SSEEvent) (m : SSEConns)
    (c : Nat) (hpid : pid ≠ "global") :
    (c ∈ m pid → writeOk c = true → (c, data) ∈ (broadcastSSE writeOk pid data m).2) ∧
    (c ∈ m "global" → writeOk c = true →
      (c, { data with pipelineId := some pid }) ∈ (broadcastSSE writeOk pid data m).2) ∧
    (writeOk c = false → c ∉ (broadcastSSE writeOk pid data m).1 pid) ∧
    (writeOk c = false → c ∉ (broadcastSSE writeOk pid data m).1 "global") ∧
    (writeOk c = true → (c ∈ (broadcastSSE writeOk pid data m).1 pid ↔ c ∈ m pid)) ∧
    (writeOk c = true → (c ∈ (broadcastSSE writeOk pid data m).1 "global" ↔ c ∈ m "global")) := by
  refine ⟨fun hc hw => ?_, fun hc hw => ?_, fun hw => ?_, fun hw => ?_, fun hw => ?_,
          fun hw => ?_⟩
  · have hlen : 0 < (m pid).length := List.length_pos.mpr (List.ne_nil_of_mem hc)
    rw [broadcast_snd writeOk pid data m hpid]
    simp [hlen, List.mem_filter, List.mem_map]
    exact Or.inl ⟨hc, hw⟩
  · have hglen : 0 < (m "global").length := List.length_pos.mpr (List.ne_nil_of_mem hc)
    rw [broadcast_snd writeOk pid data m hpid]
    simp [hglen, List.mem_filter, List.mem_map]
    exact Or.inr ⟨hc, hw⟩
  · rw [broadcast_fst_pid writeOk pid data m hpid]
    by_cases hlen : 0 < (m pid).length
    · simp [hlen, List.mem_filter, hw]
    · have hnil : m pid = [] := List.eq_nil_of_length_eq_zero (Nat.eq_zero_of_not_pos hlen)
      simp [hlen, hnil]
  · rw [broadcast_fst_global writeOk pid data m hpid]
    by_cases hglen : 0 < (m "global").length
    · simp [hglen, List.mem_filter, hw]
    · have hnil : m "global" = [] :=
        List.eq_nil_of_length_eq_zero (Nat.eq_zero_of_not_pos hglen)
      simp [hglen, hnil]
  · rw [broadcast_fst_pid writeOk pid data m hpid]
    by_cases hlen : 0 < (m pid).length
    · simp [hlen, List.mem_filter, hw]
    · simp [hlen]
  · rw [broadcast_fst_global writeOk pid data m hpid]
    by_cases hglen : 0 < (m "global").length
    · simp [hglen, List.mem_filter, hw]
    · simp [hglen]

/-- A write predicate that fails exactly on connection 2. -/
def writeOkW : Nat → Bool := fun c => c != 2

/-- A connection map with run "p1" subscribed by connections 1 and 2 and the
global set holding connections 2 and 7. -/
def mConnsW : SSEConns :=
  fun k => if k = "p1" then [1, 2] else if k = "global" then [2, 7] else []

/-- The event used by the C10 witness. -/
def evW : SSEEvent := { ty := "progress", payload := "x" }

/-- Witness for C10: connection 1 (run set) and 7 (global set) receive their
frames, while the failing connection 2 is removed from both sets. -/
theorem c10_broadcast_w :
    (1, evW) ∈ (broadcastSSE writeOkW "p1" evW mConnsW).2 ∧
    (7, { evW with pipelineId := some "p1" }) ∈ (broadcastSSE writeOkW "p1" evW mConnsW).2 ∧
    2 ∉ (broadcastSSE writeOkW "p1" evW mConnsW).1 "p1" ∧
    2 ∉ (broadcastSSE writeOkW "p1" evW mConnsW).1 "global" ∧
    (1 ∈ (broadcastSSE writeOkW "p1" evW mConnsW).1 "p1" ↔ 1 ∈ mConnsW "p1") := by
  have hA := c10_broadcast writeOkW "p1" evW mConnsW 1 (by decide)
  have hB := c10_broadcast writeOkW "p1" evW mConnsW 7 (by decide)
  have hC := c10_broadcast writeOkW "p1" evW mConnsW 2 (by decide)
  exact ⟨hA.1 (by decide) rfl, hB.2.1 (by decide) rfl, hC.2.2.1 rfl, hC.2.2.2.1 rfl,
         hA.2.2.2.2.1 rfl⟩

end AiitemRag
